import Mathlib

/-!
Verification of the hoarding-management record store and booking engine
(`hoad.py`).  The data-handling core of the program is embedded shallowly:
pure record manipulation becomes Lean functions over explicit lists, the
CSV-backed persistence becomes functions between `Listing` values and
`StoredRow` values (one `StoredRow` per CSV data line, each field the raw
text of one cell), and the Streamlit form handlers become functions that
take the loaded collection plus the form inputs and return the new
persisted collection (or a validation error).
-/

namespace Hoardings

/-! ## Data model -/

/-- In-memory listing record, as produced by `load_data`: `price` is the
result of numeric coercion (absent when unparseable), `is_available` the
result of the truthy parse, `images` the pipe-split list. -/
structure Listing where
  id : String
  location : String
  district : String
  size : String
  price : Option Nat
  is_available : Bool
  landmark : String
  coordinates : String
  address : String
  images : List String
deriving DecidableEq, Repr

/-- Booking record, one row of `bookings.csv`.  Dates are modelled as
integers ordered like `datetime.date`. -/
structure Booking where
  booking_id : String
  hoarding_id : String
  user_name : String
  phone : String
  email : String
  start_date : Int
  end_date : Int
  status : String
deriving DecidableEq, Repr

/-- Validation failure reported by a form handler (`st.error(msg)`). -/
inductive StoreError where
  | validationError (msg : String)
deriving DecidableEq, Repr

/-- One raw data line of `hoardings.csv`: every cell as stored text. -/
structure StoredRow where
  id : String
  location : String
  district : String
  size : String
  price : String
  is_available : String
  landmark : String
  coordinates : String
  address : String
  images : String
deriving DecidableEq, Repr

/-! ## Python string primitives used by the source -/

/-- Embedding of Python `str.lower()` (ASCII letters, as exercised by the
data at hand): lower-case every character. -/
def pyLower (s : String) : String := ⟨s.data.map Char.toLower⟩

/-- Embedding of Python `str.split(sep)` for a one-character separator, at
the character-list level.  `split` of the empty string is `[[]]`, matching
Python's `"".split(sep) == ['']`. -/
def splitOnChar (sep : Char) : List Char → List (List Char)
  | [] => [[]]
  | c :: rest =>
    match splitOnChar sep rest with
    | [] => [[]]
    | h :: t => if c = sep then [] :: h :: t else (c :: h) :: t

/-- Embedding of Python `sep.join(parts)` at the character-list level. -/
def joinChar (sep : Char) : List (List Char) → List Char
  | [] => []
  | [x] => x
  | x :: y :: ys => x ++ sep :: joinChar sep (y :: ys)

/-- Python `s.split(sep)` on strings. -/
def pySplit (sep : Char) (s : String) : List String :=
  (splitOnChar sep s.data).map (fun l => ⟨l⟩)

/-- Python `sep.join(parts)` on strings. -/
def pyJoin (sep : Char) (parts : List String) : String :=
  ⟨joinChar sep (parts.map String.data)⟩

/-! ## Field parsers and serializers (`load_data` / `save_data`) -/

/-- The `is_available` truthy parse of `load_data`:
`True if str(x).lower() in ["true", "1"] else False`. -/
def parse_is_available (s : String) : Bool :=
  pyLower s == "true" || pyLower s == "1"

/-- The `price` coercion of `load_data`, `pd.to_numeric(..., errors="coerce")`
restricted to the store's numeral domain: a non-empty all-digit cell denotes
its decimal value, anything else coerces to absent (NaN). -/
def parsePrice (s : String) : Option Nat :=
  if !s.data.isEmpty && s.data.all Char.isDigit then
    some (Nat.ofDigits 10 ((s.data.map (fun c => c.toNat - 48)).reverse))
  else none

/-- The `images` cell parse of `load_data`:
`x.split("|") if pd.notna(x) and x != "" else []`. -/
def parseImages (s : String) : List String :=
  if s = "" then [] else pySplit '|' s

/-- Decimal numeral of a natural number (how a present price is written
back to its CSV cell). -/
def natToString (n : Nat) : String :=
  if n = 0 then "0" else ⟨(Nat.digits 10 n).reverse.map Nat.digitChar⟩

/-- CSV cell written for a `price` value: absent prices serialize as the
empty cell (NaN), present ones as their numeral. -/
def serializePrice : Option Nat → String
  | none => ""
  | some p => natToString p

/-- CSV cell written for a boolean, Python `str(bool)`. -/
def serializeBool (b : Bool) : String := if b then "True" else "False"

/-- The `images` cell written by `save_data`: `"|".join(x) if x else ""`. -/
def serializeImages (l : List String) : String :=
  match l with
  | [] => ""
  | _ => pyJoin '|' l

/-- Parse one stored row into a `Listing` (the per-row content of
`load_data`). -/
def loadRow (r : StoredRow) : Listing :=
  { id := r.id
    location := r.location
    district := r.district
    size := r.size
    price := parsePrice r.price
    is_available := parse_is_available r.is_available
    landmark := r.landmark
    coordinates := r.coordinates
    address := r.address
    images := parseImages r.images }

/-- Serialize one `Listing` back to its stored row (the per-row content of
`save_data` followed by `to_csv`). -/
def saveRow (l : Listing) : StoredRow :=
  { id := l.id
    location := l.location
    district := l.district
    size := l.size
    price := serializePrice l.price
    is_available := serializeBool l.is_available
    landmark := l.landmark
    coordinates := l.coordinates
    address := l.address
    images := serializeImages l.images }

/-- `load_data` on the rows of an existing, non-empty `hoardings.csv`. -/
def load_data (rows : List StoredRow) : List Listing := rows.map loadRow

/-- `save_data`: overwrite the backing store with the serialized rows. -/
def save_data (ls : List Listing) : List StoredRow := ls.map saveRow

/-! ## Reading the backing file -/

/-- Outcome of `pd.read_csv` on a backing file: rows were read, the file
was not found, or the file was empty (`EmptyDataError`). -/
inductive ReadResult (α : Type) where
  | ok (rows : List α)
  | fileNotFound
  | emptyData
deriving DecidableEq

/-- `load_data` including its `try/except`: an absent or empty
`hoardings.csv` yields the empty collection. -/
def load_data_file : ReadResult StoredRow → List Listing
  | ReadResult.ok rows => load_data rows
  | ReadResult.fileNotFound => []
  | ReadResult.emptyData => []

/-- `load_bookings` including its `try/except`: an absent or empty
`bookings.csv` yields the empty collection (rows are returned unparsed). -/
def load_bookings_file : ReadResult Booking → List Booking
  | ReadResult.ok rows => rows
  | ReadResult.fileNotFound => []
  | ReadResult.emptyData => []

/-! ## Booking engine (`booking_form`) -/

/-- The submit branch of `booking_form`: validate the form fields, then
append the new booking and persist.  `bdf` is the loaded bookings
collection, `newId` the generated `uuid4`.  The returned list is both the
new in-memory collection and the content written to `bookings.csv` by
`save_bookings`. -/
def createBooking (bdf : List Booking) (newId hoardingId userName phone email : String)
    (startDate endDate : Int) : Except StoreError (List Booking) :=
  if userName = "" ∨ phone = "" ∨ email = "" then
    Except.error (StoreError.validationError "Please fill all required fields.")
  else if endDate < startDate then
    Except.error (StoreError.validationError "End date cannot be before start date.")
  else
    Except.ok (bdf ++ [{ booking_id := newId
                         hoarding_id := hoardingId
                         user_name := userName
                         phone := phone
                         email := email
                         start_date := startDate
                         end_date := endDate
                         status := "Pending" }])

/-- The persisted bookings collection after the submit interaction: on a
validation error nothing is written, so the file keeps `bdf`. -/
def submitBooking (bdf : List Booking) (newId hoardingId userName phone email : String)
    (startDate endDate : Int) : List Booking :=
  match createBooking bdf newId hoardingId userName phone email startDate endDate with
  | Except.ok b => b
  | Except.error _ => bdf

/-! ## Add New Hoarding (`main`, "Add New" branch) -/

/-- The submit branch of the Add New form: require `location`, `district`,
`size` non-empty, then append the new listing (with the generated id and
the checkbox / numeric inputs) and persist the whole collection. -/
def addHoarding (df : List Listing) (newId location district size : String) (price : Nat)
    (is_available : Bool) (landmark coordinates address : String) (images : List String) :
    Except StoreError (List Listing) :=
  if location = "" ∨ district = "" ∨ size = "" then
    Except.error (StoreError.validationError
      "Please fill all required fields (location, district, size).")
  else
    Except.ok (df ++ [{ id := newId
                        location := location
                        district := district
                        size := size
                        price := some price
                        is_available := is_available
                        landmark := landmark
                        coordinates := coordinates
                        address := address
                        images := images }])

/-! ## Edit Existing Hoarding (`main`, "Edit Existing" branch) -/

/-- The form inputs of the edit form.  `images` holds the newly uploaded
images only; the handler concatenates them onto the existing ones. -/
structure ListingPatch where
  location : String
  district : String
  size : String
  price : Nat
  landmark : String
  coordinates : String
  address : String
  is_available : Bool
  images : List String
deriving DecidableEq, Repr

/-- The `updates` dictionary applied to the selected row: every mutable
field is replaced by its form value, `price` becomes present, `images`
becomes `existing_images + new_images`, and `id` is not in the dictionary
so it is kept. -/
def applyPatch (l : Listing) (p : ListingPatch) : Listing :=
  { id := l.id
    location := p.location
    district := p.district
    size := p.size
    price := some p.price
    is_available := p.is_available
    landmark := p.landmark
    coordinates := p.coordinates
    address := p.address
    images := l.images ++ p.images }

/-- The update handler: patch the first row whose id matches (the row at
`df.index[df.id == hoarding_id][0]`), leaving every other row as it is. -/
def updateHoarding (hid : String) (p : ListingPatch) : List Listing → List Listing
  | [] => []
  | l :: rest =>
    if l.id = hid then applyPatch l p :: rest else l :: updateHoarding hid p rest

/-! ## Filter evaluator (`main`, "View Hoardings" branch) -/

/-- Runtime failure raised by an embedded pandas operation. -/
inductive PandasError where
  | attributeError (msg : String)
deriving DecidableEq, Repr

/-- The filter block of View Hoardings: the district filter and the
availability filter act on the matching columns; the size branch, however,
reads `filtered_df.size`, which in pandas is the element-count property of
the DataFrame itself rather than the `size` column, so calling
`.str.contains(...)` on it raises `AttributeError` whenever the size
filter is non-empty. -/
def filterHoardings (df : List Listing) (districtFilter statusFilter sizeFilter : String) :
    Except PandasError (List Listing) :=
  let f1 := if districtFilter ≠ "All" then df.filter (fun l => l.district == districtFilter)
            else df
  let f2 := if statusFilter ≠ "All" then
              f1.filter (fun l => l.is_available == decide (statusFilter = "Available"))
            else f1
  if sizeFilter ≠ "" then
    Except.error (PandasError.attributeError "numpy.int64 object has no attribute str")
  else Except.ok f2

/-! ## Price rendering (`main`, listing card) -/

/-- The price cell of the listing card:
`row['price'] if not pd.isna(row['price']) else 'N/A'`. -/
def renderPrice : Option Nat → String
  | none => "N/A"
  | some p => natToString p

end Hoardings
namespace Hoardings

theorem toNat_ofNat_of_lt {n : Nat} (h : n < 55296) : (Char.ofNat n).toNat = n := by
  have hv : n.isValidChar := Or.inl h
  rw [Char.ofNat, dif_pos hv]
  rfl

theorem toLower_eq_one {c : Char} (h : Char.toLower c = '1') : c = '1' := by
  have h' : (if c.toNat ≥ 65 ∧ c.toNat ≤ 90 then Char.ofNat (c.toNat + 32) else c) = '1' := h
  split at h'
  · exfalso
    rename_i hc
    have h2 := congrArg Char.toNat h'
    rw [toNat_ofNat_of_lt (by omega)] at h2
    have h3 : ('1' : Char).toNat = 49 := by decide
    omega
  · exact h'

theorem pyLower_eq_one_iff (s : String) : pyLower s = "1" ↔ s = "1" := by
  obtain ⟨l⟩ := s
  show (⟨l.map Char.toLower⟩ : String) = ⟨['1']⟩ ↔ (⟨l⟩ : String) = ⟨['1']⟩
  simp only [String.ext_iff]
  match l with
  | [] => simp
  | [c] =>
    simp only [List.map_cons, List.map_nil, List.cons.injEq, and_true]
    exact ⟨fun h => toLower_eq_one h, fun h => by subst h; decide⟩
  | a :: b :: rest => simp

/-- C2: the load-time `is_available` parse yields true exactly on
case-insensitive "true" and on the literal "1"; every other value,
including "false", "0", the empty string, "yes" and "TRUE " with a
trailing space, yields false. -/
theorem parse_is_available_spec :
    (∀ s : String, parse_is_available s = true ↔ (pyLower s = "true" ∨ s = "1")) ∧
    parse_is_available "true" = true ∧ parse_is_available "True" = true ∧
    parse_is_available "1" = true ∧ parse_is_available "false" = false ∧
    parse_is_available "0" = false ∧ parse_is_available "" = false ∧
    parse_is_available "yes" = false ∧ parse_is_available "TRUE " = false := by
  refine ⟨fun s => ?_, by decide, by decide, by decide, by decide, by decide, by decide,
    by decide, by decide⟩
  unfold parse_is_available
  rw [Bool.or_eq_true, beq_iff_eq, beq_iff_eq, pyLower_eq_one_iff s]

/-- C7: an unparseable stored price (such as "abc") loads as absent, never
as zero nor as an error, and an absent price renders as "N/A". -/
theorem price_unparseable_absent :
    parsePrice "abc" = none ∧ renderPrice (parsePrice "abc") = "N/A" ∧
    (∀ s : String, parsePrice s = none → renderPrice (parsePrice s) = "N/A") :=
  ⟨by decide, by decide, fun s h => by rw [h]; rfl⟩

theorem price_unparseable_absent_witness : renderPrice (parsePrice "12 feet") = "N/A" :=
  price_unparseable_absent.2.2 "12 feet" (by decide)

/-- C8: an absent or empty backing file loads as the empty collection for
both listings and bookings, not as an error. -/
theorem load_empty_on_missing :
    load_data_file ReadResult.fileNotFound = [] ∧
    load_data_file ReadResult.emptyData = [] ∧
    load_bookings_file ReadResult.fileNotFound = [] ∧
    load_bookings_file ReadResult.emptyData = [] :=
  ⟨rfl, rfl, rfl, rfl⟩

/-- C1: a booking request with non-empty userName, phone and email and
endDate >= startDate always succeeds: the new Pending record is appended
and persisted, for every hoardingId whatsoever (the id is an arbitrary
string here, so no existence or availability check against the listing
store can take place). -/
theorem createBooking_no_existence_check (bdf : List Booking)
    (newId hoardingId userName phone email : String) (startDate endDate : Int)
    (hu : userName ≠ "") (hp : phone ≠ "") (he : email ≠ "") (hd : startDate ≤ endDate) :
    createBooking bdf newId hoardingId userName phone email startDate endDate =
      Except.ok (bdf ++
        [⟨newId, hoardingId, userName, phone, email, startDate, endDate, "Pending"⟩]) ∧
    submitBooking bdf newId hoardingId userName phone email startDate endDate =
      bdf ++ [⟨newId, hoardingId, userName, phone, email, startDate, endDate, "Pending"⟩] := by
  have h1 : ¬(userName = "" ∨ phone = "" ∨ email = "") := by tauto
  have h2 : ¬(endDate < startDate) := by omega
  constructor
  · rw [createBooking, if_neg h1, if_neg h2]
  · rw [submitBooking, createBooking, if_neg h1, if_neg h2]

theorem createBooking_no_existence_check_witness :
    createBooking [] "b1" "no-such-hoarding" "Asha" "99" "a@x.in" 738000 738030 =
      Except.ok [⟨"b1", "no-such-hoarding", "Asha", "99", "a@x.in", 738000, 738030,
        "Pending"⟩] :=
  (createBooking_no_existence_check [] "b1" "no-such-hoarding" "Asha" "99" "a@x.in"
    738000 738030 (by decide) (by decide) (by decide) (by decide)).1

/-- C4: a booking request with an empty userName, phone or email, or with
endDate < startDate, fails with a validation error and leaves the
persisted bookings collection unchanged. -/
theorem createBooking_validation (bdf : List Booking)
    (newId hoardingId userName phone email : String) (startDate endDate : Int)
    (h : userName = "" ∨ phone = "" ∨ email = "" ∨ endDate < startDate) :
    (∃ msg, createBooking bdf newId hoardingId userName phone email startDate endDate =
      Except.error (StoreError.validationError msg)) ∧
    submitBooking bdf newId hoardingId userName phone email startDate endDate = bdf := by
  by_cases h1 : userName = "" ∨ phone = "" ∨ email = ""
  · refine ⟨⟨"Please fill all required fields.", ?_⟩, ?_⟩
    · rw [createBooking, if_pos h1]
    · rw [submitBooking, createBooking, if_pos h1]
  · have h2 : endDate < startDate := by tauto
    refine ⟨⟨"End date cannot be before start date.", ?_⟩, ?_⟩
    · rw [createBooking, if_neg h1, if_pos h2]
    · rw [submitBooking, createBooking, if_neg h1, if_pos h2]

theorem createBooking_validation_witness :
    (∃ msg, createBooking [] "b1" "h1" "Asha" "99" "a@x.in" 738030 738000 =
      Except.error (StoreError.validationError msg)) ∧
    submitBooking [] "b1" "h1" "Asha" "99" "a@x.in" 738030 738000 = [] :=
  createBooking_validation [] "b1" "h1" "Asha" "99" "a@x.in" 738030 738000
    (by decide)

/-- C9: adding a listing fails with a validation error whenever location,
district or size is empty; otherwise the listing is appended with the
freshly generated id (uniqueness of the id set being preserved when the
generated id is fresh) and the whole collection is persisted. -/
theorem addHoarding_spec (df : List Listing) (newId location district size : String)
    (price : Nat) (avail : Bool) (landmark coordinates address : String)
    (images : List String) :
    ((location = "" ∨ district = "" ∨ size = "") →
      ∃ msg, addHoarding df newId location district size price avail landmark
        coordinates address images = Except.error (StoreError.validationError msg)) ∧
    (location ≠ "" → district ≠ "" → size ≠ "" →
      addHoarding df newId location district size price avail landmark coordinates
          address images =
        Except.ok (df ++ [⟨newId, location, district, size, some price, avail, landmark,
          coordinates, address, images⟩]) ∧
      (newId ∉ df.map Listing.id → (df.map Listing.id).Nodup →
        ((df ++ [(⟨newId, location, district, size, some price, avail, landmark,
          coordinates, address, images⟩ : Listing)]).map Listing.id).Nodup)) := by
  constructor
  · intro h
    exact ⟨"Please fill all required fields (location, district, size).",
      by rw [addHoarding, if_pos h]⟩
  · intro h1 h2 h3
    have h : ¬(location = "" ∨ district = "" ∨ size = "") := by tauto
    refine ⟨by rw [addHoarding, if_neg h], fun hfresh hnodup => ?_⟩
    simp only [List.map_append, List.map_cons, List.map_nil]
    rw [List.nodup_append]
    refine ⟨hnodup, List.nodup_singleton _, ?_⟩
    intro a ha hmem
    simp only [List.mem_singleton] at hmem
    exact hfresh (hmem ▸ ha)

theorem addHoarding_spec_witness :
    addHoarding [] "h1" "MG Road" "Raipur" "10x20" 5000 true "" "" "" [] =
      Except.ok [⟨"h1", "MG Road", "Raipur", "10x20", some 5000, true, "", "", "", []⟩] :=
  ((addHoarding_spec [] "h1" "MG Road" "Raipur" "10x20" 5000 true "" "" "" []).2
    (by decide) (by decide) (by decide)).1

/-- C3: updating the listing with a given id (unique in the store) yields
exactly the patched listing, whose images are the existing images followed
in order by the newly supplied ones — update appends, never replaces or
drops. -/
theorem update_appends_images (df : List Listing) (hid : String) (p : ListingPatch)
    (l : Listing) (hnd : (df.map Listing.id).Nodup) (hmem : l ∈ df) (heq : l.id = hid) :
    applyPatch l p ∈ updateHoarding hid p df ∧
    (applyPatch l p).images = l.images ++ p.images := by
  refine ⟨?_, rfl⟩
  induction df with
  | nil => cases hmem
  | cons a rest ih =>
    simp only [List.map_cons, List.nodup_cons] at hnd
    rw [updateHoarding]
    by_cases ha : a.id = hid
    · rw [if_pos ha]
      have hla : l = a := by
        rcases List.mem_cons.mp hmem with h | h
        · exact h
        · exact absurd (by rw [ha, ← heq]; exact List.mem_map_of_mem Listing.id h) hnd.1
      rw [hla]
      exact List.mem_cons_self _ _
    · rw [if_neg ha]
      have hlr : l ∈ rest := by
        rcases List.mem_cons.mp hmem with h | h
        · exact absurd (h ▸ heq) ha
        · exact h
      exact List.mem_cons_of_mem _ (ih hnd.2 hlr)

theorem update_appends_images_witness :
    applyPatch ⟨"h1", "MG Road", "Raipur", "10x20", some 5000, true, "", "", "", ["x"]⟩
        ⟨"MG Road", "Raipur", "10x20", 5000, "", "", "", true, ["a", "b"]⟩ ∈
      updateHoarding "h1" ⟨"MG Road", "Raipur", "10x20", 5000, "", "", "", true, ["a", "b"]⟩
        [⟨"h1", "MG Road", "Raipur", "10x20", some 5000, true, "", "", "", ["x"]⟩] ∧
    (applyPatch ⟨"h1", "MG Road", "Raipur", "10x20", some 5000, true, "", "", "", ["x"]⟩
        ⟨"MG Road", "Raipur", "10x20", 5000, "", "", "", true, ["a", "b"]⟩).images =
      ["x", "a", "b"] := by
  have h := update_appends_images
    [⟨"h1", "MG Road", "Raipur", "10x20", some 5000, true, "", "", "", ["x"]⟩] "h1"
    ⟨"MG Road", "Raipur", "10x20", 5000, "", "", "", true, ["a", "b"]⟩
    ⟨"h1", "MG Road", "Raipur", "10x20", some 5000, true, "", "", "", ["x"]⟩
    (by decide) (List.mem_singleton.mpr rfl) rfl
  exact ⟨h.1, h.2.trans rfl⟩

/-- C10: an update leaves the length of the store, the id of every row
(including the patched one) and every row whose id differs from the
updated id unchanged. -/
theorem update_frame (df : List Listing) (hid : String) (p : ListingPatch) :
    (updateHoarding hid p df).length = df.length ∧
    ∀ (i : Nat) (l : Listing), df[i]? = some l →
      ∃ l', (updateHoarding hid p df)[i]? = some l' ∧ l'.id = l.id ∧
        (l.id ≠ hid → l' = l) := by
  induction df with
  | nil => exact ⟨rfl, fun i l h => by simp at h⟩
  | cons a rest ih =>
    rw [updateHoarding]
    by_cases ha : a.id = hid
    · rw [if_pos ha]
      refine ⟨by simp, fun i l h => ?_⟩
      cases i with
      | zero =>
        simp only [List.getElem?_cons_zero, Option.some.injEq] at h
        exact ⟨applyPatch a p, by simp, by rw [← h]; rfl, fun hne => absurd (h ▸ ha) hne⟩
      | succ n =>
        simp only [List.getElem?_cons_succ] at h ⊢
        exact ⟨l, h, rfl, fun _ => rfl⟩
    · rw [if_neg ha]
      refine ⟨by simpa using ih.1, fun i l h => ?_⟩
      cases i with
      | zero =>
        simp only [List.getElem?_cons_zero, Option.some.injEq] at h
        exact ⟨a, by simp, by rw [h], fun _ => h⟩

      | succ n =>
        simp only [List.getElem?_cons_succ] at h ⊢
        exact ih.2 n l h

theorem update_frame_witness :
    ∃ l', (updateHoarding "h9"
        ⟨"MG Road", "Raipur", "10x20", 5000, "", "", "", true, []⟩
        [⟨"h1", "MG Road", "Raipur", "10x20", some 5000, true, "", "", "", []⟩])[0]? =
        some l' ∧
      l'.id = (⟨"h1", "MG Road", "Raipur", "10x20", some 5000, true, "", "", "",
        []⟩ : Listing).id ∧
      ((⟨"h1", "MG Road", "Raipur", "10x20", some 5000, true, "", "", "",
        []⟩ : Listing).id ≠ "h9" →
        l' = ⟨"h1", "MG Road", "Raipur", "10x20", some 5000, true, "", "", "", []⟩) :=
  (update_frame [⟨"h1", "MG Road", "Raipur", "10x20", some 5000, true, "", "", "", []⟩]
    "h9" ⟨"MG Road", "Raipur", "10x20", 5000, "", "", "", true, []⟩).2 0
    ⟨"h1", "MG Road", "Raipur", "10x20", some 5000, true, "", "", "", []⟩ (by decide)

/-- C5: the claimed size-substring filtering is not what the code does:
the size branch accesses `filtered_df.size`, the element-count property of
the DataFrame (not the `size` column), so every non-empty size filter
raises AttributeError instead of returning the filtered subsequence.  With
the size filter inactive, the district and availability predicates do
combine as the claimed stable conjunctive filter. -/
theorem filterHoardings_size_filter_crash :
    (∀ (df : List Listing) (dfil sfil zfil : String), zfil ≠ "" →
      filterHoardings df dfil sfil zfil =
        Except.error (PandasError.attributeError
          "numpy.int64 object has no attribute str")) ∧
    (∀ (df : List Listing) (dfil sfil : String),
      filterHoardings df dfil sfil "" = Except.ok (df.filter (fun l =>
        (dfil == "All" || l.district == dfil) &&
        (sfil == "All" || l.is_available == decide (sfil = "Available"))))) := by
  constructor
  · intro df dfil sfil zfil hz
    simp [filterHoardings, hz]
  · intro df dfil sfil
    by_cases h1 : dfil = "All" <;> by_cases h2 : sfil = "All"
    · simp [filterHoardings, h1, h2]
    · simp [filterHoardings, h1, h2, beq_false_of_ne h2]
    · simp [filterHoardings, h1, h2, beq_false_of_ne h1]
    · simp [filterHoardings, h1, h2, beq_false_of_ne h1, beq_false_of_ne h2,
        List.filter_filter, Bool.and_comm, Bool.and_left_comm, Bool.and_assoc]

theorem filterHoardings_size_filter_crash_witness :
    filterHoardings [] "All" "All" "10x" =
      Except.error (PandasError.attributeError
        "numpy.int64 object has no attribute str") :=
  filterHoardings_size_filter_crash.1 [] "All" "All" "10x" (by decide)

theorem splitOnChar_ne_nil (sep : Char) (l : List Char) : splitOnChar sep l ≠ [] := by
  cases l with
  | nil => simp [splitOnChar]
  | cons c rest =>
    rw [splitOnChar]
    cases h : splitOnChar sep rest with
    | nil => simp
    | cons hh tt =>
      dsimp only
      split <;> simp

theorem joinChar_splitOnChar (sep : Char) (l : List Char) :
    joinChar sep (splitOnChar sep l) = l := by
  induction l with
  | nil => rfl
  | cons c rest ih =>
    rw [splitOnChar]
    cases h : splitOnChar sep rest with
    | nil => exact absurd h (splitOnChar_ne_nil sep rest)
    | cons hh tt =>
      rw [h] at ih
      dsimp only
      by_cases hc : c = sep
      · rw [if_pos hc, joinChar, hc]
        cases tt <;> simp_all [joinChar]
      · rw [if_neg hc]
        cases tt with
        | nil =>
          rw [joinChar] at ih ⊢
          rw [ih]
        | cons t ts =>
          rw [joinChar] at ih ⊢
          rw [List.cons_append, ih]

theorem parseImages_serializeImages (s : String) :
    parseImages (serializeImages (parseImages s)) = parseImages s := by
  by_cases hs : s = ""
  · subst hs
    rfl
  · have hkey : serializeImages (parseImages s) = s := by
      rw [parseImages, if_neg hs, pySplit]
      cases h : splitOnChar '|' s.data with
      | nil => exact absurd h (splitOnChar_ne_nil '|' s.data)
      | cons a t =>
        rw [List.map_cons, serializeImages, pyJoin, List.map_cons, List.map_map]
        show String.mk (joinChar '|' ((⟨a⟩ : String).data :: t.map (fun l => (String.mk l).data))) = s
        have hdata : ∀ u : List Char, (String.mk u).data = u := fun u => rfl
        simp only [hdata]
        have hmapid : t.map (fun l => (String.mk l).data) = t := by
          simp [hdata]
        rw [hmapid, ← h, joinChar_splitOnChar]
        simp
    rw [hkey]

theorem digitChar_facts : ∀ d : Nat, d < 10 →
    (Nat.digitChar d).isDigit = true ∧ (Nat.digitChar d).toNat - 48 = d := by decide

theorem parsePrice_natToString (n : Nat) : parsePrice (natToString n) = some n := by
  by_cases h0 : n = 0
  · subst h0
    decide
  · rw [natToString, if_neg h0, parsePrice]
    have hne : Nat.digits 10 n ≠ [] := Nat.digits_ne_nil_iff_ne_zero.mpr h0
    have hlt : ∀ d ∈ Nat.digits 10 n, d < 10 := fun d hd =>
      Nat.digits_lt_base (by norm_num) hd
    have hdata : (String.mk ((Nat.digits 10 n).reverse.map Nat.digitChar)).data =
        (Nat.digits 10 n).reverse.map Nat.digitChar := rfl
    rw [hdata]
    have hcond : (!((Nat.digits 10 n).reverse.map Nat.digitChar).isEmpty &&
        ((Nat.digits 10 n).reverse.map Nat.digitChar).all Char.isDigit) = true := by
      rw [Bool.and_eq_true, Bool.not_eq_true', List.isEmpty_eq_false_iff_exists_mem]
      constructor
      · obtain ⟨d, hd⟩ := List.exists_mem_of_ne_nil _ hne
        exact ⟨Nat.digitChar d, List.mem_map_of_mem _ (List.mem_reverse.mpr hd)⟩
      · rw [List.all_eq_true]
        intro c hc
        obtain ⟨d, hd, rfl⟩ := List.mem_map.mp hc
        exact (digitChar_facts d (hlt d (List.mem_reverse.mp hd))).1
    rw [if_pos hcond, Option.some.injEq, List.map_map]
    have hmap : (Nat.digits 10 n).reverse.map ((fun c => c.toNat - 48) ∘ Nat.digitChar) =
        (Nat.digits 10 n).reverse := by
      apply List.map_congr_left ?_ |>.trans (List.map_id _)
      intro d hd
      exact (digitChar_facts d (hlt d (List.mem_reverse.mp hd))).2
    rw [hmap, List.reverse_reverse, Nat.ofDigits_digits]

theorem parsePrice_serializePrice (o : Option Nat) : parsePrice (serializePrice o) = o := by
  cases o with
  | none => rfl
  | some p => exact parsePrice_natToString p

theorem parse_serializeBool (b : Bool) : parse_is_available (serializeBool b) = b := by
  cases b <;> decide

theorem loadRow_saveRow (r : StoredRow) : loadRow (saveRow (loadRow r)) = loadRow r := by
  rw [loadRow, loadRow, saveRow]
  simp only [parsePrice_serializePrice, parse_serializeBool, parseImages_serializeImages]

/-- C6: writing the loaded collection back to the store and loading again
reproduces the same listings, field for field — in particular for a
collection containing a listing with populated images, a present price and
non-empty optional text fields, there is no field drift across the
save/load round trip. -/
theorem save_load_roundtrip (rows : List StoredRow)
    (h : ∃ l ∈ load_data rows, l.images ≠ [] ∧ l.price.isSome = true ∧
      l.landmark ≠ "" ∧ l.coordinates ≠ "" ∧ l.address ≠ "") :
    load_data (save_data (load_data rows)) = load_data rows := by
  rw [load_data, save_data, load_data, List.map_map, List.map_map]
  exact List.map_congr_left fun r _ => loadRow_saveRow r

theorem save_load_roundtrip_witness :
    load_data (save_data (load_data
      [⟨"h1", "MG Road", "Raipur", "10x20", "5000", "True", "Clock Tower", "21.25,81.63",
        "MG Road, Raipur", "a.jpg|b.jpg"⟩])) =
    load_data [⟨"h1", "MG Road", "Raipur", "10x20", "5000", "True", "Clock Tower",
      "21.25,81.63", "MG Road, Raipur", "a.jpg|b.jpg"⟩] :=
  save_load_roundtrip
    [⟨"h1", "MG Road", "Raipur", "10x20", "5000", "True", "Clock Tower", "21.25,81.63",
      "MG Road, Raipur", "a.jpg|b.jpg"⟩]
    ⟨loadRow ⟨"h1", "MG Road", "Raipur", "10x20", "5000", "True", "Clock Tower",
      "21.25,81.63", "MG Road, Raipur", "a.jpg|b.jpg"⟩, by decide, by decide⟩

end Hoardings
